import Mathlib

set_option maxHeartbeats 1000000

/-!
Shallow embedding of `src/renpy_warp.rpe.py` (the Ren'Py-side agent of the
vscode-renpy-warp extension) and proofs about the claims of the specification.

Modelling conventions:
  * Strings are Lean `String`s / `List Char`; the Python regular expression in
    `get_meta` is embedded as an explicit matcher with exactly its
    greedy/backtracking semantics on this pattern.
  * Python exceptions are `Option`/`Except` style results: a raised exception
    that the source does not catch is an explicit `error`/`some err` value.
  * The websocket, the Ren'Py host and time are external collaborators; their
    behaviour is a parameter (an environment function), never fixed.
-/

/- ───────────────────────── §1 Identity Resolver: `get_meta` (lines 19–36) ── -/

/-- Character class for the regex token `\d` in `RPE_FILE_PATTERN` (line 21). -/
def isDigitCh (c : Char) : Bool := '0' ≤ c && c ≤ '9'

/-- Character class for `[a-z0-9]` in `RPE_FILE_PATTERN` (line 21). -/
def isLowerAlnumCh (c : Char) : Bool := ('a' ≤ c && c ≤ 'z') || ('0' ≤ c && c ≤ '9')

/-- Consume a literal piece of the pattern from the front of the input
(regex literal characters such as `renpy_warp_`, `\.`, `_`). -/
def stripLit : List Char → List Char → Option (List Char)
  | [], cs => some cs
  | _ :: _, [] => none
  | l :: ls, c :: cs => if c = l then stripLit ls cs else none

/-- Greedy nonempty character-class run (`\d+`, `[a-z0-9]+`).  For this pattern
greedy matching without intra-run backtracking is exact, because the character
following each run in the pattern (`.` or `_`) is never inside the class. -/
def span1 (p : Char → Bool) (cs : List Char) : Option (List Char × List Char) :=
  if (cs.takeWhile p).isEmpty then none
  else some (cs.takeWhile p, cs.dropWhile p)

/-- The optional group `(?:_(?P<checksum>[a-z0-9]+))?` followed by the literal
`\.rpe`.  Returns the checksum characters and the rest after `.rpe` when the
group participates in the match; `none` makes the caller backtrack to the
group-skipped alternative, exactly as the regex engine does. -/
def checksumBranch (cs : List Char) : Option (List Char × List Char) :=
  (stripLit ['_'] cs).bind fun cs1 =>
  (span1 isLowerAlnumCh cs1).bind fun pr =>
  (stripLit ".rpe".data pr.2).map fun cs3 => (pr.1, cs3)

/-- Embedding of `RPE_FILE_PATTERN.match` (line 20–27):
`renpy_warp_(?P<version>\d+\.\d+\.\d+)(?:_(?P<checksum>[a-z0-9]+))?\.rpe(?:\.py)?`
with Python `re.match` semantics (anchored at the start only; trailing
characters — including the optional `.py` — do not affect the captures).
Returns the `version` and optional `checksum` groups. -/
def rpeMatch (cs : List Char) : Option (String × Option String) :=
  (stripLit "renpy_warp_".data cs).bind fun cs1 =>
  (span1 isDigitCh cs1).bind fun p1 =>
  (stripLit ['.'] p1.2).bind fun cs3 =>
  (span1 isDigitCh cs3).bind fun p2 =>
  (stripLit ['.'] p2.2).bind fun cs5 =>
  (span1 isDigitCh cs5).bind fun p3 =>
  let version := String.mk (p1.1 ++ ('.' :: p2.1) ++ ('.' :: p3.1))
  match checksumBranch p3.2 with
  | some r => some (version, some (String.mk r.1))
  | none => (stripLit ".rpe".data p3.2).map fun _ => (version, none)

/-- Embedding of `get_meta` (lines 19–36) as a function of the deployed
artifact's basename: on a regex match it returns `(version, checksum)`
(`d["version"], d["checksum"]`, line 36); otherwise it raises
(`raise Exception(...)`, lines 29–32), modelled as `Except.error`. -/
def get_meta (filename : String) : Except String (String × Option String) :=
  match rpeMatch filename.data with
  | some m => Except.ok m
  | none => Except.error ("could not parse filename " ++ filename)

/- ─────────────────── §2 Command Dispatcher: `socket_listener` (lines 48–74) ── -/

/-- Values produced by `json.loads` (restricted to the shapes the dispatcher
inspects). -/
inductive PyVal where
  | str (s : String)
  | num (n : Int)
  | dict (fields : List (String × PyVal))
  | other

/-- Python `==` between a parsed value and a string literal: true exactly when
the value is an equal string (comparing a non-string to a string is `False`,
never an error). -/
def PyVal.isStr (v : PyVal) (s : String) : Bool :=
  match v with
  | .str t => t == s
  | _ => false

/-- One raw frame received from the websocket: either text that `json.loads`
fails to parse (raising `json.JSONDecodeError`), or the parsed value. -/
inductive InMsg where
  | malformed
  | parsed (v : PyVal)

/-- Observable actions of the dispatcher: the `py_exec` calls (lines 59, 67,
70) and the unhandled-type log (line 74). -/
inductive LAction where
  | execWarpToLine (file : PyVal) (line : PyVal)
  | execSetAutoreload
  | execReload
  | logUnhandled (t : PyVal)

/-- Result of running the receive loop: `finished` when the loop ends by
stream end or by the `reload` `break` (line 71); `raised err` when an
uncaught exception terminates it early (nothing in `socket_listener` catches
anything). -/
inductive LResult where
  | finished (acts : List LAction)
  | raised (acts : List LAction) (err : String)

/-- Prepend an already-performed action to a loop result. -/
def LResult.withAct (a : LAction) : LResult → LResult
  | .finished acts => .finished (a :: acts)
  | .raised acts e => .raised (a :: acts) e

/-- Python dict lookup `payload[key]` on the parsed object's fields. -/
def lookupField : List (String × PyVal) → String → Option PyVal
  | [], _ => none
  | (k, v) :: rest, key => if k = key then some v else lookupField rest key

/-- Embedding of `socket_listener` (lines 48–74) over the sequence of frames
the socket delivers.  `json.loads` failure and `payload["type"]` on a
non-dict / missing key are uncaught exceptions (`JSONDecodeError`,
`TypeError`, `KeyError`): they terminate the loop immediately.  A parsed dict
whose `type` is none of the three handled tags is printed and skipped
(line 74).  `reload` breaks out of the loop (line 71). -/
def socket_listener : List InMsg → LResult
  | [] => .finished []
  | .malformed :: _ => .raised [] "JSONDecodeError"
  | .parsed v :: ms =>
    match v with
    | .dict fields =>
      match lookupField fields "type" with
      | none => .raised [] "KeyError"
      | some t =>
        if t.isStr "warp_to_line" then
          match lookupField fields "file", lookupField fields "line" with
          | some f, some l => (socket_listener ms).withAct (.execWarpToLine f l)
          | _, _ => .raised [] "KeyError"
        else if t.isStr "set_autoreload" then
          (socket_listener ms).withAct .execSetAutoreload
        else if t.isStr "reload" then
          .finished [.execReload]
        else
          (socket_listener ms).withAct (.logUnhandled t)
    | _ => .raised [] "TypeError"

/-- `true` iff the receive loop ran to a normal end (no uncaught exception). -/
def continuedB : LResult → Bool
  | .finished _ => true
  | .raised _ _ => false

/- ──────────────── §3 Location Reporter: `socket_producer` (lines 77–116) ── -/

/-- One host interaction event as delivered to the registered callback
`fn(event, interact=True, **kwargs)` (line 84), together with the value
`renpy.exports.get_filename_line()` would report at that moment (line 96). -/
structure Event where
  event : String
  interact : Bool
  filename : String
  line : Nat
deriving DecidableEq

/-- Behaviour of `websocket.send` for one message: succeeds, raises
`ConnectionClosedOK`, or raises any other exception. -/
inductive SendOutcome where
  | ok
  | closedOK
  | otherErr
deriving DecidableEq

/-- State owned by one `socket_producer` activation: the `first` flag
(line 81), whether `fn` is still in `renpy.config.all_character_callbacks`
(lines 114, 116), and the messages sent so far on this connection. -/
structure PState where
  first : Bool
  registered : Bool
  sent : List String
deriving DecidableEq

/-- `Path(filename).relative_to('game')` (line 97): strips the leading `game/`
component; raises `ValueError` (modelled as `none`) otherwise. -/
def relative_to_game (filename : String) : Option String :=
  if filename.take 5 = "game/" then some (filename.drop 5) else none

/-- `json.dumps` of the outbound dict (lines 100–107), with Python's default
separators and the source's key order.  `path` is
`Path(renpy.config.gamedir, relative_filename).as_posix()` (line 98). -/
def dumpsCurrentLine (gamedir rel : String) (line : Nat) : String :=
  "\x7b\"type\": \"current_line\", \"line\": " ++ toString line
    ++ ", \"path\": \"" ++ gamedir ++ "/" ++ rel
    ++ "\", \"relative_path\": \"" ++ rel ++ "\"\x7d"

/-- The serialized body the reporter computes for an event whose filename is
under `game/`. -/
def bodyOf (gamedir : String) (e : Event) : String :=
  dumpsCurrentLine gamedir (e.filename.drop 5) e.line

/-- A qualifying location event: `interact` is true and the kind is `begin`
(lines 87–90). -/
def qualifying (e : Event) : Bool := e.interact && (e.event == "begin")

/-- Embedding of one invocation of the callback `fn` (lines 84–114).
The second component is the exception escaping into the host's event
dispatch, if any: only `ConnectionClosedOK` from `websocket.send` is caught
(line 112, answered by removing the callback, line 114); every other
exception — `ValueError` from `relative_to` (line 97) or any non-OK send
failure (line 110) — propagates. -/
def fnStep (gamedir : String) (send : String → SendOutcome) (s : PState) (e : Event) :
    PState × Option String :=
  if e.interact = false then (s, none)
  else if e.event = "begin" then
    if s.first = true then ({ s with first := false }, none)
    else
      match relative_to_game e.filename with
      | none => (s, some "ValueError")
      | some rel =>
        let message := dumpsCurrentLine gamedir rel e.line
        match send message with
        | .ok => ({ s with sent := s.sent ++ [message] }, none)
        | .closedOK => ({ s with registered := false }, none)
        | .otherErr => (s, some "ConnectionClosedError")
  else (s, none)

/-- The host invokes `fn` once per interaction event while it remains
registered; collected escaping exceptions are returned alongside the final
state. -/
def runProducer (gamedir : String) (send : String → SendOutcome) :
    List Event → PState → PState × List String
  | [], s => (s, [])
  | e :: es, s =>
    if s.registered = true then
      let step := fnStep gamedir send s e
      let rest := runProducer gamedir send es step.1
      (rest.1, step.2.toList ++ rest.2)
    else (s, [])

/-- State right after `socket_producer` runs (lines 81, 116): `first = True`
and `fn` freshly appended to the host's callback list, nothing sent yet. -/
def socket_producer_init : PState := ⟨true, true, []⟩

/-- A websocket whose sends all succeed. -/
def sendOkFn : String → SendOutcome := fun _ => .ok

/-- A websocket whose sends all fail with a non-`ConnectionClosedOK` error. -/
def sendErrFn : String → SendOutcome := fun _ => .otherErr

/- ──────── §4 Connection Manager: `socket_service` (119–166),
            `try_socket_ports_forever` (169–182) ── -/

/-- How an established connection ends: graceful `ConnectionClosedOK`
(line 153), a `WebSocketException` carrying close code `code` (line 156), or
`socket_listener` returning normally after `reload` so the `with` block exits
without an exception. -/
inductive CloseCause where
  | closedOK
  | wsCode (code : Nat)
  | listenerReturned
deriving DecidableEq

/-- Result of one connection attempt: `connect` raised
`ConnectionRefusedError` (line 163), or the connection was established and
later ended with the given cause. -/
inductive Outcome where
  | refused
  | established (cause : CloseCause)
deriving DecidableEq

/-- The host state touched by the Connection Manager:
`renpy.config.quit_callbacks`, holding one entry per registered `quit`
closure, identified here by the port it closes (line 142–146). -/
structure Host where
  quit_callbacks : List Nat
deriving DecidableEq

/-- Embedding of `socket_service` (lines 119–166) for one attempt with a given
outcome: returns the function's boolean result (`True` exactly on close code
4000, lines 156–159) and the updated host.  On every established connection
the `quit` closure is appended (line 146) before the receive loop runs, so it
stays registered whatever the close cause; a refused connection never reaches
the `with` body. -/
def socket_service (port : Nat) (o : Outcome) (h : Host) : Bool × Host :=
  match o with
  | .refused => (false, h)
  | .established cause =>
    let h' : Host := ⟨h.quit_callbacks ++ [port]⟩
    match cause with
    | .closedOK => (false, h')
    | .wsCode code => (code == 4000, h')
    | .listenerReturned => (false, h')

/-- The boolean `socket_service` returns, as a function of the outcome alone. -/
def closesService : Outcome → Bool
  | .established (.wsCode c) => c == 4000
  | _ => false

/-- `range(40111, 40121)` (line 174). -/
def portRange : List Nat := List.range' 40111 10

/-- Observable trace of the retry loop: each connection attempt (with its
port and outcome) and each `sleep(5)` backoff (line 182). -/
inductive TraceEvent where
  | attempt (port : Nat) (o : Outcome)
  | backoff
deriving DecidableEq

/-- Result of one `for port in range(...)` pass (lines 174–179). -/
structure PassResult where
  trace : List TraceEvent
  closed : Bool
  k : Nat
  host : Host
deriving DecidableEq

/-- Result of the whole `while` loop. -/
structure LoopResult where
  trace : List TraceEvent
  host : Host
deriving DecidableEq

/-- Embedding of the `for` loop (lines 174–179): attempts the ports in order,
threading the global attempt counter `k` through the environment `env`
(attempt number ↦ outcome), and `break`s as soon as `socket_service` returns
`True` (line 178–179). -/
def runPass (env : Nat → Outcome) : List Nat → Nat → Host → PassResult
  | [], k, h => ⟨[], false, k, h⟩
  | p :: ps, k, h =>
    let r := socket_service p (env k) h
    if r.1 then ⟨[.attempt p (env k)], true, k + 1, r.2⟩
    else
      let rest := runPass env ps (k + 1) r.2
      ⟨.attempt p (env k) :: rest.trace, rest.closed, rest.k, rest.host⟩

/-- Embedding of the `while service_closed is False` loop (lines 173–182),
bounded by `fuel` iterations: each iteration runs one pass over `portRange`
followed by the print-and-`sleep(5)` backoff (lines 181–182), then stops if
the pass set `service_closed`. -/
def runLoop (env : Nat → Outcome) : Nat → Nat → Host → LoopResult
  | 0, _, h => ⟨[], h⟩
  | fuel + 1, k, h =>
    let r := runPass env portRange k h
    if r.closed then ⟨r.trace ++ [.backoff], r.host⟩
    else
      let rest := runLoop env fuel r.k r.host
      ⟨r.trace ++ [.backoff] ++ rest.trace, rest.host⟩

/-- Embedding of `try_socket_ports_forever` (lines 169–182): `get_meta` runs
first (line 170); if it raises, the exception propagates and the loop below
it is never entered — no connection attempt is ever made. -/
def try_socket_ports_forever (filename : String) (env : Nat → Outcome) (fuel : Nat) :
    Except String LoopResult :=
  match get_meta filename with
  | .error e => .error e
  | .ok _ => .ok (runLoop env fuel 0 ⟨[]⟩)

/-- Is this trace event a connection attempt? -/
def isAttempt : TraceEvent → Bool
  | .attempt _ _ => true
  | .backoff => false

/-- No attempt in the list closes the service. -/
def noClose (t : List TraceEvent) : Bool :=
  t.all fun e =>
    match e with
    | .attempt _ o => !closesService o
    | .backoff => true

/-- Every service-closing attempt in the list is followed by no further
attempt. -/
def closeIsLast : List TraceEvent → Bool
  | [] => true
  | .backoff :: rest => closeIsLast rest
  | .attempt _ o :: rest =>
    (if closesService o then rest.all (fun e => !isAttempt e) else true)
      && closeIsLast rest

/-- Ports of the attempts that established a connection, in trace order: one
entry per `quit` callback registration. -/
def establishedPorts (t : List TraceEvent) : List Nat :=
  t.filterMap fun e =>
    match e with
    | .attempt p (.established _) => some p
    | _ => none

/-- The trace of one full pass in which every port refuses. -/
def passRefusedTrace : List TraceEvent :=
  portRange.map (fun p => .attempt p .refused) ++ [.backoff]

/- ──────────── §5 Agent Lifecycle: `start_renpy_warp_service` (185–191) ── -/

/-- Host state seen by `start_renpy_warp_service`: the
`renpy.config.developer` flag and the number of worker threads spawned so
far. -/
structure AgentState where
  developer : Bool
  threads : Nat
deriving DecidableEq

/-- Embedding of `start_renpy_warp_service` (lines 185–191): when
`renpy.config.developer` is true it unconditionally creates and starts a new
daemon thread; otherwise it does nothing.  There is no guard against being
called again. -/
def start_renpy_warp_service (s : AgentState) : AgentState :=
  if s.developer then { s with threads := s.threads + 1 } else s

/- ───────────────────────────── concrete inputs for witnesses ── -/

/-- A qualifying interact event at `game/a.rpy:3`. -/
def evA : Event := ⟨"begin", true, "game/a.rpy", 3⟩

/-- A qualifying interact event at `game/b.rpy:7`. -/
def evB : Event := ⟨"begin", true, "game/b.rpy", 7⟩

/-- Environment: the first attempt connects and ends with a graceful peer
close; every later attempt is refused. -/
def env5 : Nat → Outcome := fun k => if k = 0 then .established .closedOK else .refused

/-- Environment: every attempt connects and ends with close code 4000. -/
def env6 : Nat → Outcome := fun _ => .established (.wsCode 4000)

/-- Environment: every attempt is refused. -/
def envR : Nat → Outcome := fun _ => .refused

/- ═════════════════════════════════════════════════ theorems ── -/

/-- C3 counterexample: calling `start_renpy_warp_service` twice with the
developer flag set spawns two worker threads — there is no one-shot latch, so
the claimed "at most one background worker over any number of calls" is
false. -/
theorem c3_counterexample :
    ¬ ((start_renpy_warp_service (start_renpy_warp_service ⟨true, 0⟩)).threads ≤ 1) := by
  decide

/-- C3 amended: each call of `start_renpy_warp_service` with the developer
flag true spawns one new worker thread (`n` calls spawn `n` workers — the
function is not idempotent), and no worker is ever spawned while the flag is
false. -/
theorem c3_spawn_per_call (n : Nat) (s : AgentState) :
    (start_renpy_warp_service^[n] s).threads
      = s.threads + (if s.developer then n else 0) := by
  induction n generalizing s with
  | zero => simp
  | succ n ih =>
    rw [Function.iterate_succ_apply, ih]
    by_cases hd : s.developer
    · simp only [start_renpy_warp_service, hd, if_true]
      omega
    · simp [start_renpy_warp_service, hd]

/-- C2 counterexample: a malformed frame makes `socket_listener` raise instead
of logging and continuing — the receive loop terminates and the following
(valid) `reload` message is never processed; likewise a parsed frame with no
`type` field raises `KeyError`. -/
theorem c2_counterexample :
    continuedB (socket_listener
        [.malformed, .parsed (.dict [("type", .str "reload")])]) = false
  ∧ socket_listener [InMsg.parsed (.dict [("nottype", .str "x")])]
      = .raised [] "KeyError" :=
  ⟨rfl, rfl⟩

/-- C2 amended: a malformed payload (unparseable text, or a dict without a
`type` field) raises an uncaught exception that terminates the receive loop —
the remaining messages of the connection are never read; only well-formed
messages whose `type` value is unrecognized are logged and skipped with the
loop continuing. -/
theorem c2_malformed_raises (ms : List InMsg) (t : PyVal)
    (h1 : t.isStr "warp_to_line" = false) (h2 : t.isStr "set_autoreload" = false)
    (h3 : t.isStr "reload" = false) :
    socket_listener (.malformed :: ms) = .raised [] "JSONDecodeError"
  ∧ socket_listener (.parsed (.dict [("type", t)]) :: ms)
      = (socket_listener ms).withAct (.logUnhandled t) := by
  refine ⟨rfl, ?_⟩
  simp [socket_listener, lookupField, h1, h2, h3]

/-- C2 witness: the amended behaviour at a concrete stream. -/
theorem c2_witness :
    socket_listener [InMsg.malformed] = .raised [] "JSONDecodeError"
  ∧ socket_listener [InMsg.parsed (.dict [("type", .str "unknown")])]
      = (socket_listener []).withAct (.logUnhandled (.str "unknown")) :=
  c2_malformed_raises [] (.str "unknown") rfl rfl rfl

/-- C4 counterexample: a send failure other than `ConnectionClosedOK` is not
caught by the callback — the exception escapes into the host's main-thread
event dispatch, refuting "every other send failure is likewise caught and
contained". -/
theorem c4_counterexample :
    (fnStep "proj" sendErrFn ⟨false, true, []⟩ evA).2 ≠ none := by
  decide

/-- C4 amended: when the send fails because the peer already closed the
connection gracefully (`ConnectionClosedOK`), the callback unregisters itself
from the host's callback list and no exception escapes; a send failure of any
other kind, however, propagates uncaught into the host's event dispatch. -/
theorem c4_closedok_teardown (gamedir : String) (s : PState) (e : Event)
    (h1 : s.first = false) (h2 : qualifying e = true)
    (h3 : e.filename.take 5 = "game/") :
    fnStep gamedir (fun _ => .closedOK) s e = ({ s with registered := false }, none) := by
  simp only [qualifying, Bool.and_eq_true, beq_iff_eq] at h2
  obtain ⟨hi, hb⟩ := h2
  simp [fnStep, hi, hb, h1, relative_to_game, h3]

/-- C4 witness: the graceful-close self-teardown at a concrete event. -/
theorem c4_witness :
    fnStep "proj" (fun _ => SendOutcome.closedOK) ⟨false, true, []⟩ evA
      = (⟨false, false, []⟩, none) :=
  c4_closedok_teardown "proj" ⟨false, true, []⟩ evA rfl (by decide) (by decide)

/-- C1 counterexample: with three qualifying events at the identical location,
the code sends the identical serialized body twice (the first event is
consumed by the first-event suppression, the second and third — consecutive
and byte-identical — are both sent).  There is no last-sent cache, so the
claimed "sends exactly once and skips the duplicate" is false. -/
theorem c1_counterexample :
    (runProducer "proj" sendOkFn [evA, evA, evA] socket_producer_init).1.sent
        = [bodyOf "proj" evA, bodyOf "proj" evA]
  ∧ (runProducer "proj" sendOkFn [evA, evA, evA] socket_producer_init).1.sent.length ≠ 1 := by
  constructor
  · rfl
  · decide

/-- C1 amended: the reporter keeps no last-sent cache and performs no
de-duplication: once past the first-event suppression, every qualifying event
results in a send, even when its serialized body is byte-identical to the most
recently sent message. -/
theorem c1_no_dedup (gamedir : String) (s : PState) (e : Event)
    (h1 : s.first = false) (h2 : qualifying e = true)
    (h3 : e.filename.take 5 = "game/")
    (_hlast : s.sent.getLast? = some (bodyOf gamedir e)) :
    (fnStep gamedir sendOkFn s e).1.sent = s.sent ++ [bodyOf gamedir e] := by
  simp only [qualifying, Bool.and_eq_true, beq_iff_eq] at h2
  obtain ⟨hi, hb⟩ := h2
  simp [fnStep, sendOkFn, hi, hb, h1, relative_to_game, h3, bodyOf]

/-- C1 witness: a duplicate body is sent again even though it equals the last
sent message. -/
theorem c1_witness :
    (fnStep "proj" sendOkFn ⟨false, true, [bodyOf "proj" evA]⟩ evA).1.sent
      = [bodyOf "proj" evA, bodyOf "proj" evA] :=
  c1_no_dedup "proj" ⟨false, true, [bodyOf "proj" evA]⟩ evA rfl (by decide)
    (by decide) (by rfl)

/-- A non-qualifying event (non-interact, or a kind other than `begin`) leaves
the callback state untouched and raises nothing. -/
theorem fnStep_not_qualifying (gamedir : String) (send : String → SendOutcome)
    (s : PState) (e : Event) (hq : qualifying e = false) :
    fnStep gamedir send s e = (s, none) := by
  by_cases hi : e.interact = true
  · simp only [qualifying, hi, Bool.true_and] at hq
    have hbe : ¬ (e.event = "begin") := by simpa using hq
    simp [fnStep, hi, hbe]
  · have hi' : e.interact = false := by revert hi; cases e.interact <;> simp
    simp [fnStep, hi']

/-- The first qualifying event only clears the `first` flag; nothing is sent. -/
theorem fnStep_qualifying_first (gamedir : String) (send : String → SendOutcome)
    (s : PState) (e : Event) (hq : qualifying e = true) (hf : s.first = true) :
    fnStep gamedir send s e = ({ s with first := false }, none) := by
  simp only [qualifying, Bool.and_eq_true, beq_iff_eq] at hq
  obtain ⟨hi, hb⟩ := hq
  simp [fnStep, hi, hb, hf]

/-- A later qualifying event on a healthy socket appends exactly its computed
body to the sent messages. -/
theorem fnStep_qualifying_send_ok (gamedir : String) (s : PState) (e : Event)
    (hq : qualifying e = true) (hf : s.first = false)
    (hfile : e.filename.take 5 = "game/") :
    fnStep gamedir sendOkFn s e = ({ s with sent := s.sent ++ [bodyOf gamedir e] }, none) := by
  simp only [qualifying, Bool.and_eq_true, beq_iff_eq] at hq
  obtain ⟨hi, hb⟩ := hq
  simp [fnStep, sendOkFn, hi, hb, hf, relative_to_game, hfile, bodyOf]

/-- Once the `first` flag is spent, the producer sends the body of every
qualifying event, in order. -/
theorem runProducer_after_first (gamedir : String) (evs : List Event) :
    ∀ sent : List String, (∀ e ∈ evs, e.filename.take 5 = "game/") →
    runProducer gamedir sendOkFn evs ⟨false, true, sent⟩
      = (⟨false, true, sent ++ (evs.filter qualifying).map (bodyOf gamedir)⟩, []) := by
  induction evs with
  | nil => intro sent _; simp [runProducer]
  | cons e es ih =>
    intro sent h
    have he := h e (List.mem_cons_self e es)
    have hes : ∀ x ∈ es, x.filename.take 5 = "game/" :=
      fun x hx => h x (List.mem_cons_of_mem e hx)
    by_cases hq : qualifying e = true
    · have hstep := fnStep_qualifying_send_ok gamedir ⟨false, true, sent⟩ e hq rfl he
      simp only [runProducer, hstep]
      rw [ih (sent ++ [bodyOf gamedir e]) hes]
      simp [hq, List.filter_cons, List.append_assoc]
    · have hq' : qualifying e = false := Bool.eq_false_iff.mpr hq
      have hstep := fnStep_not_qualifying gamedir sendOkFn ⟨false, true, sent⟩ e hq'
      simp only [runProducer, hstep]
      rw [ih sent hes]
      simp [hq', List.filter_cons]

/-- From a fresh subscription the producer drops exactly the first qualifying
event and sends the body of every later qualifying event, in order. -/
theorem runProducer_from_start (gamedir : String) (evs : List Event) :
    ∀ sent : List String, (∀ e ∈ evs, e.filename.take 5 = "game/") →
    runProducer gamedir sendOkFn evs ⟨true, true, sent⟩
      = (⟨!(evs.any qualifying), true,
          sent ++ ((evs.filter qualifying).map (bodyOf gamedir)).tail⟩, []) := by
  induction evs with
  | nil => intro sent _; simp [runProducer]
  | cons e es ih =>
    intro sent h
    have hes : ∀ x ∈ es, x.filename.take 5 = "game/" :=
      fun x hx => h x (List.mem_cons_of_mem e hx)
    by_cases hq : qualifying e = true
    · have hstep := fnStep_qualifying_first gamedir sendOkFn ⟨true, true, sent⟩ e hq rfl
      simp only [runProducer, hstep]
      rw [runProducer_after_first gamedir es sent hes]
      simp [hq, List.filter_cons]
    · have hq' : qualifying e = false := Bool.eq_false_iff.mpr hq
      have hstep := fnStep_not_qualifying gamedir sendOkFn ⟨true, true, sent⟩ e hq'
      simp only [runProducer, hstep]
      rw [ih sent hes]
      simp [hq', List.filter_cons]

/-- C8: on each connection exactly the first qualifying location event after
the reporter subscribes is suppressed: the sent messages are the computed
bodies of all qualifying events except the first, in order — so the stream
`[begin(A), begin(A), begin(B)]` produces exactly two sends. -/
theorem c8_first_suppressed (gamedir : String) (evs : List Event)
    (h : ∀ e ∈ evs, e.filename.take 5 = "game/") :
    (runProducer gamedir sendOkFn evs socket_producer_init).1.sent
      = ((evs.filter qualifying).map (bodyOf gamedir)).tail := by
  have := runProducer_from_start gamedir evs [] h
  simp only [socket_producer_init]
  rw [this]
  simp

/-- C8 witness: the spec's scenario `[begin(A), begin(A), begin(B)]` yields
exactly two sent messages — the second `A` and `B`. -/
theorem c8_witness :
    (runProducer "proj" sendOkFn [evA, evA, evB] socket_producer_init).1.sent
      = [bodyOf "proj" evA, bodyOf "proj" evB]
  ∧ (runProducer "proj" sendOkFn [evA, evA, evB] socket_producer_init).1.sent.length = 2 :=
  ⟨(c8_first_suppressed "proj" [evA, evA, evB] (by decide)).trans (by rfl), by decide⟩

/-- The boolean returned by `socket_service` depends only on the outcome. -/
theorem socket_service_fst (p : Nat) (o : Outcome) (h : Host) :
    (socket_service p o h).1 = closesService o := by
  cases o with
  | refused => rfl
  | established c => cases c <;> rfl

/-- An established connection appends its `quit` closure to the host's
quit-callback list, whatever the close cause. -/
theorem socket_service_established_host (p : Nat) (c : CloseCause) (h : Host) :
    (socket_service p (.established c) h).2 = ⟨h.quit_callbacks ++ [p]⟩ := by
  cases c <;> rfl

/-- C5 counterexample: after the graceful peer close on port 40111 the very
next attempt is on port 40112 — the next port of the range, not the first
candidate port 40111 as claimed. -/
theorem c5_counterexample :
    ((runLoop env5 1 0 ⟨[]⟩).trace).take 2
      = [TraceEvent.attempt 40111 (.established .closedOK),
         TraceEvent.attempt 40112 .refused]
  ∧ portRange.head? = some 40111
  ∧ (40112 : Nat) ≠ 40111 := by
  refine ⟨by decide, by decide, by decide⟩

/-- C5 amended: after a graceful peer-initiated close (`ConnectionClosedOK`,
not the reserved shutdown code) the Connection Manager continues the scan
with the remaining ports of the current pass — the port after the one that
just closed comes next; it returns to the first candidate port only on the
next pass, after the whole range is exhausted and the backoff has run. -/
theorem c5_graceful_close_scans_next_port (env : Nat → Outcome) (ps : List Nat)
    (k p : Nat) (h : Host) (hk : env k = .established .closedOK) :
    runPass env (p :: ps) k h
      = ⟨.attempt p (.established .closedOK)
            :: (runPass env ps (k + 1) ⟨h.quit_callbacks ++ [p]⟩).trace,
         (runPass env ps (k + 1) ⟨h.quit_callbacks ++ [p]⟩).closed,
         (runPass env ps (k + 1) ⟨h.quit_callbacks ++ [p]⟩).k,
         (runPass env ps (k + 1) ⟨h.quit_callbacks ++ [p]⟩).host⟩ := by
  simp [runPass, hk, socket_service]

/-- C5 witness: the amended behaviour at a concrete environment. -/
theorem c5_witness :
    runPass env5 [40111, 40112] 0 ⟨[]⟩
      = ⟨.attempt 40111 (.established .closedOK)
            :: (runPass env5 [40112] 1 ⟨[40111]⟩).trace,
         (runPass env5 [40112] 1 ⟨[40111]⟩).closed,
         (runPass env5 [40112] 1 ⟨[40111]⟩).k,
         (runPass env5 [40112] 1 ⟨[40111]⟩).host⟩ :=
  c5_graceful_close_scans_next_port env5 [40112] 0 40111 ⟨[]⟩ rfl

/-- A pass in which every attempt is refused visits every port of the list in
order, closes nothing, and leaves the host untouched. -/
theorem runPass_refused (env : Nat → Outcome) (href : ∀ i, env i = .refused) :
    ∀ (ps : List Nat) (k : Nat) (h : Host),
    runPass env ps k h = ⟨ps.map (fun p => .attempt p .refused), false, k + ps.length, h⟩ := by
  intro ps
  induction ps with
  | nil => intro k h; simp [runPass]
  | cons p ps ih =>
    intro k h
    have harith : k + 1 + ps.length = k + (ps.length + 1) := by omega
    simp [runPass, href, socket_service, ih (k + 1) h, harith]

/-- The refused-everywhere loop is `fuel` identical passes. -/
theorem runLoop_refused (env : Nat → Outcome) (href : ∀ i, env i = .refused) :
    ∀ (fuel k : Nat) (h : Host),
    runLoop env fuel k h = ⟨(List.replicate fuel passRefusedTrace).flatten, h⟩ := by
  intro fuel
  induction fuel with
  | zero => intro k h; simp [runLoop]
  | succ fuel ih =>
    intro k h
    simp [runLoop, runPass_refused env href, ih, passRefusedTrace, List.replicate_succ]

/-- C7: with every connection attempt refused, each pass of the Connection
Manager attempts each candidate port exactly once, in ascending order
(40111, …, 40120), followed by exactly one backoff, and the passes repeat in
that shape. -/
theorem c7_ports_in_order (env : Nat → Outcome) (fuel k : Nat) (h : Host)
    (href : ∀ i, env i = .refused) :
    (runLoop env fuel k h).trace = (List.replicate fuel passRefusedTrace).flatten
  ∧ (runLoop env fuel k h).host = h
  ∧ portRange = [40111, 40112, 40113, 40114, 40115, 40116, 40117, 40118, 40119, 40120] := by
  rw [runLoop_refused env href fuel k h]
  exact ⟨rfl, rfl, by decide⟩

/-- C7 witness: one refused pass, fully evaluated. -/
theorem c7_witness :
    (runLoop envR 1 0 ⟨[]⟩).trace
      = [TraceEvent.attempt 40111 .refused, .attempt 40112 .refused,
         .attempt 40113 .refused, .attempt 40114 .refused, .attempt 40115 .refused,
         .attempt 40116 .refused, .attempt 40117 .refused, .attempt 40118 .refused,
         .attempt 40119 .refused, .attempt 40120 .refused, .backoff] :=
  ((c7_ports_in_order envR 1 0 ⟨[]⟩ (fun _ => rfl)).1).trans (by decide)

/-- `noClose` distributes over append. -/
theorem noClose_append (t1 t2 : List TraceEvent) :
    noClose (t1 ++ t2) = (noClose t1 && noClose t2) := by
  simp [noClose, List.all_append]

/-- Prepending non-closing events preserves `closeIsLast`. -/
theorem closeIsLast_append_of_noClose (t1 t2 : List TraceEvent)
    (h1 : noClose t1 = true) (h2 : closeIsLast t2 = true) :
    closeIsLast (t1 ++ t2) = true := by
  induction t1 with
  | nil => simpa using h2
  | cons e t1 ih =>
    cases e with
    | backoff =>
      have h1' : noClose t1 = true := by simpa [noClose] using h1
      simpa [closeIsLast] using ih h1'
    | attempt p o =>
      simp only [noClose, List.all_cons, Bool.and_eq_true] at h1
      have ho : closesService o = false := by simpa using h1.1
      have h1' : noClose t1 = true := h1.2
      simp [closeIsLast, ho, ih h1']

/-- `noClose` on a cons of an attempt. -/
theorem noClose_cons_attempt (p : Nat) (o : Outcome) (t : List TraceEvent) :
    noClose (.attempt p o :: t) = (!closesService o && noClose t) := by
  simp [noClose]

/-- A pass either closes — and then its trace is non-closing attempts followed
by one final attempt — or it does not close and its whole trace is
non-closing. -/
theorem runPass_split (env : Nat → Outcome) :
    ∀ (ps : List Nat) (k : Nat) (h : Host),
    ((runPass env ps k h).closed = true →
        ∃ t0 p o, (runPass env ps k h).trace = t0 ++ [.attempt p o] ∧ noClose t0 = true)
  ∧ ((runPass env ps k h).closed = false → noClose (runPass env ps k h).trace = true) := by
  intro ps
  induction ps with
  | nil =>
    intro k h
    exact ⟨fun hc => by simp [runPass] at hc, fun _ => by simp [runPass, noClose]⟩
  | cons p ps ih =>
    intro k h
    by_cases hc : closesService (env k) = true
    · have hfst : (socket_service p (env k) h).1 = true := by
        rw [socket_service_fst]; exact hc
      constructor
      · intro _
        refine ⟨[], p, env k, ?_, rfl⟩
        simp [runPass, hfst]
      · intro hf
        simp [runPass, hfst] at hf
    · have hc' : closesService (env k) = false := Bool.eq_false_iff.mpr hc
      have hfst : (socket_service p (env k) h).1 = false := by
        rw [socket_service_fst]; exact hc'
      have ihk := ih (k + 1) (socket_service p (env k) h).2
      constructor
      · intro hcl
        simp only [runPass, hfst, Bool.false_eq_true, if_false] at hcl ⊢
        obtain ⟨t0, q, o, htr, hnc⟩ := ihk.1 hcl
        refine ⟨.attempt p (env k) :: t0, q, o, ?_, ?_⟩
        · simp [htr]
        · rw [noClose_cons_attempt]
          simp [hc', hnc]
      · intro hcl
        simp only [runPass, hfst, Bool.false_eq_true, if_false] at hcl ⊢
        have := ihk.2 hcl
        rw [noClose_cons_attempt]
        simp [hc', this]

/-- Invariant of the retry loop: every service-closing attempt is the last
attempt of the whole trace. -/
theorem closeIsLast_runLoop (env : Nat → Outcome) :
    ∀ (fuel k : Nat) (h : Host), closeIsLast (runLoop env fuel k h).trace = true := by
  intro fuel
  induction fuel with
  | zero => intro k h; simp [runLoop, closeIsLast]
  | succ fuel ih =>
    intro k h
    by_cases hc : (runPass env portRange k h).closed = true
    · obtain ⟨t0, p, o, htr, hnc⟩ := (runPass_split env portRange k h).1 hc
      simp only [runLoop, hc, if_true]
      rw [htr, List.append_assoc]
      refine closeIsLast_append_of_noClose t0 _ hnc ?_
      cases hco : closesService o <;> simp [closeIsLast, isAttempt, hco]
    · have hc' : (runPass env portRange k h).closed = false := Bool.eq_false_iff.mpr hc
      have hnc := (runPass_split env portRange k h).2 hc'
      simp only [runLoop, hc', Bool.false_eq_true, if_false]
      rw [List.append_assoc]
      refine closeIsLast_append_of_noClose _ _ hnc ?_
      have : noClose [TraceEvent.backoff] = true := by simp [noClose]
      exact closeIsLast_append_of_noClose [TraceEvent.backoff] _ this (ih _ _)

/-- A `closeIsLast` trace split at a closing attempt has no attempts after it. -/
theorem closeIsLast_split :
    ∀ (pre l post : List TraceEvent) (p : Nat) (o : Outcome),
    closeIsLast l = true → l = pre ++ .attempt p o :: post → closesService o = true →
    post.all (fun e => !isAttempt e) = true := by
  intro pre
  induction pre with
  | nil =>
    intro l post p o hl heq hco
    subst heq
    simp only [List.nil_append, closeIsLast, hco, if_true, Bool.and_eq_true] at hl
    exact hl.1
  | cons x pre ih =>
    intro l post p o hl heq hco
    subst heq
    cases x with
    | backoff =>
      exact ih _ post p o (by simpa [closeIsLast] using hl) rfl hco
    | attempt q u =>
      simp only [List.cons_append, closeIsLast, Bool.and_eq_true] at hl
      exact ih _ post p o hl.2 rfl hco

/-- C6: whenever a connection ends with the reserved shutdown close code 4000,
no connection attempt ever follows it in the loop's trace (for any fuel,
i.e. for the remainder of the process lifetime): the retry loop halts
permanently. -/
theorem c6_shutdown_halts (env : Nat → Outcome) (fuel k : Nat) (h : Host)
    (pre post : List TraceEvent) (p : Nat)
    (hsplit : (runLoop env fuel k h).trace
        = pre ++ .attempt p (.established (.wsCode 4000)) :: post) :
    post.all (fun e => !isAttempt e) = true :=
  closeIsLast_split pre _ post p _ (closeIsLast_runLoop env fuel k h) hsplit rfl

/-- C6 witness: a concrete 4000-coded close ends the trace immediately. -/
theorem c6_witness :
    (runLoop env6 2 0 ⟨[]⟩).trace
      = [] ++ TraceEvent.attempt 40111 (.established (.wsCode 4000)) :: [TraceEvent.backoff]
  ∧ [TraceEvent.backoff].all (fun e => !isAttempt e) = true :=
  ⟨by decide, c6_shutdown_halts env6 2 0 ⟨[]⟩ [] [.backoff] 40111 (by decide)⟩

/-- `establishedPorts` distributes over append. -/
theorem establishedPorts_append (t1 t2 : List TraceEvent) :
    establishedPorts (t1 ++ t2) = establishedPorts t1 ++ establishedPorts t2 := by
  simp [establishedPorts, List.filterMap_append]

/-- Across one pass, the quit-callback list grows by exactly the ports of the
established attempts, in order; nothing is ever removed. -/
theorem runPass_quit_callbacks (env : Nat → Outcome) :
    ∀ (ps : List Nat) (k : Nat) (h : Host),
    (runPass env ps k h).host.quit_callbacks
      = h.quit_callbacks ++ establishedPorts (runPass env ps k h).trace := by
  intro ps
  induction ps with
  | nil => intro k h; simp [runPass, establishedPorts]
  | cons p ps ih =>
    intro k h
    rcases henv : env k with _ | c
    · simp [runPass, henv, socket_service, establishedPorts, List.filterMap_cons, ih]
    · rcases c with _ | code | _
      · simp [runPass, henv, socket_service, establishedPorts, List.filterMap_cons, ih,
          List.append_assoc]
      · by_cases h4 : code = 4000
        · subst h4
          simp [runPass, henv, socket_service, establishedPorts, List.filterMap_cons]
        · have hne : (code == 4000) = false := by simp [h4]
          simp [runPass, henv, socket_service, hne, establishedPorts, List.filterMap_cons,
            ih, List.append_assoc]
      · simp [runPass, henv, socket_service, establishedPorts, List.filterMap_cons, ih,
          List.append_assoc]

/-- C10: every successful connection appends exactly one shutdown (quit)
callback to the host's quit-callback list and none is ever removed: after the
loop, the list is the initial list extended by one entry per established
connection, accumulated across reconnections. -/
theorem c10_quit_callbacks_accumulate (env : Nat → Outcome) (fuel : Nat) :
    ∀ (k : Nat) (h : Host),
    (runLoop env fuel k h).host.quit_callbacks
      = h.quit_callbacks ++ establishedPorts (runLoop env fuel k h).trace := by
  induction fuel with
  | zero => intro k h; simp [runLoop, establishedPorts]
  | succ fuel ih =>
    intro k h
    by_cases hcl : (runPass env portRange k h).closed = true
    · simp [runLoop, hcl, runPass_quit_callbacks, establishedPorts_append, establishedPorts]
    · have hcl' : (runPass env portRange k h).closed = false := Bool.eq_false_iff.mpr hcl
      simp [runLoop, hcl', runPass_quit_callbacks, establishedPorts_append,
        establishedPorts, ih, List.append_assoc]

/-- `stripLit` consumes exactly its pattern from the front. -/
theorem stripLit_self (pat rest : List Char) : stripLit pat (pat ++ rest) = some rest := by
  induction pat with
  | nil => rfl
  | cons ch pat ih => simp [stripLit, ih]

/-- `stripLit` of a one-character pattern. -/
theorem stripLit_cons (ch : Char) (rest : List Char) : stripLit [ch] (ch :: rest) = some rest := by
  simp [stripLit]

/-- `takeWhile` over an in-class block followed by an out-of-class head. -/
theorem takeWhile_block (p : Char → Bool) (xs : List Char) (y : Char) (ys : List Char)
    (hx : ∀ ch ∈ xs, p ch = true) (hy : p y = false) :
    (xs ++ y :: ys).takeWhile p = xs := by
  induction xs with
  | nil => simp [List.takeWhile_cons, hy]
  | cons ch xs ih =>
    have hc := hx ch (List.mem_cons_self ch xs)
    simp [List.takeWhile_cons, hc,
      ih (fun d hd => hx d (List.mem_cons_of_mem ch hd))]

/-- `dropWhile` over an in-class block followed by an out-of-class head. -/
theorem dropWhile_block (p : Char → Bool) (xs : List Char) (y : Char) (ys : List Char)
    (hx : ∀ ch ∈ xs, p ch = true) (hy : p y = false) :
    (xs ++ y :: ys).dropWhile p = y :: ys := by
  induction xs with
  | nil => simp [List.dropWhile_cons, hy]
  | cons ch xs ih =>
    have hc := hx ch (List.mem_cons_self ch xs)
    simp [List.dropWhile_cons, hc,
      ih (fun d hd => hx d (List.mem_cons_of_mem ch hd))]

/-- `span1` over a nonempty in-class block followed by an out-of-class head. -/
theorem span1_block (p : Char → Bool) (xs : List Char) (y : Char) (ys : List Char)
    (hne : xs ≠ []) (hx : ∀ ch ∈ xs, p ch = true) (hy : p y = false) :
    span1 p (xs ++ y :: ys) = some (xs, y :: ys) := by
  simp [span1, takeWhile_block p xs y ys hx hy, dropWhile_block p xs y ys hx hy, hne]

/-- C9: identity resolution is a pure function of the artifact filename — a
name of the code's pattern shape `renpy_warp_<version>_<checksum>.rpe`
resolves to exactly that version and checksum; a name that does not match the
pattern (e.g. `agent.ext`) makes `get_meta` raise, and that failure aborts
`try_socket_ports_forever` before any connection attempt. -/
theorem c9_identity (d1 d2 d3 c : List Char)
    (hd1 : d1 ≠ [] ∧ ∀ ch ∈ d1, isDigitCh ch = true)
    (hd2 : d2 ≠ [] ∧ ∀ ch ∈ d2, isDigitCh ch = true)
    (hd3 : d3 ≠ [] ∧ ∀ ch ∈ d3, isDigitCh ch = true)
    (hc : c ≠ [] ∧ ∀ ch ∈ c, isLowerAlnumCh ch = true) :
    get_meta (String.mk ("renpy_warp_".data
        ++ (d1 ++ ('.' :: (d2 ++ ('.' :: (d3 ++ ('_' :: (c ++ ".rpe".data)))))))))
      = Except.ok (String.mk (d1 ++ ('.' :: d2) ++ ('.' :: d3)), some (String.mk c))
  ∧ get_meta "agent.ext" = Except.error "could not parse filename agent.ext"
  ∧ (∀ (env : Nat → Outcome) (fuel : Nat),
        try_socket_ports_forever "agent.ext" env fuel
          = Except.error "could not parse filename agent.ext") := by
  refine ⟨?_, rfl, fun env fuel => rfl⟩
  have hmk : ∀ l : List Char, (String.mk l).data = l := fun _ => rfl
  have hcb : checksumBranch ('_' :: (c ++ ".rpe".data)) = some (c, []) := by
    simp only [checksumBranch, stripLit_cons, Option.some_bind]
    rw [span1_block isLowerAlnumCh c '.' ['r', 'p', 'e'] hc.1 hc.2 (by decide)]
    rfl
  simp only [get_meta, hmk, rpeMatch]
  rw [stripLit_self]
  simp only [Option.some_bind]
  rw [span1_block isDigitCh d1 '.' _ hd1.1 hd1.2 (by decide)]
  simp only [Option.some_bind]
  rw [stripLit_cons]
  simp only [Option.some_bind]
  rw [span1_block isDigitCh d2 '.' _ hd2.1 hd2.2 (by decide)]
  simp only [Option.some_bind]
  rw [stripLit_cons]
  simp only [Option.some_bind]
  rw [span1_block isDigitCh d3 '_' _ hd3.1 hd3.2 (by decide)]
  simp only [Option.some_bind]
  rw [hcb]

/-- C9 witness: the concrete artifact names of the spec's scenario. -/
theorem c9_witness :
    get_meta "renpy_warp_1.2.3_abcd12.rpe" = Except.ok ("1.2.3", some "abcd12")
  ∧ get_meta "agent.ext" = Except.error "could not parse filename agent.ext" :=
  ⟨(c9_identity ['1'] ['2'] ['3'] ['a', 'b', 'c', 'd', '1', '2']
      (by decide) (by decide) (by decide) (by decide)).1,
   (c9_identity ['1'] ['2'] ['3'] ['a', 'b', 'c', 'd', '1', '2']
      (by decide) (by decide) (by decide) (by decide)).2.1⟩
